import Mathlib

/-!
Verification of the SmartGuard AI surveillance dashboard core.

This development shallowly embeds the state-synchronization layer of the
application: the reducer-style store (`surveillanceReducer` over
`SurvState`), the mutation gateway operations (`createTower`,
`updateTower`, `createCamera`, `acknowledgeAlarm`, `resolveAlarm`), the
health probe (`checkConnection`), and the per-camera live-feed message
handler of the video player (`onMessage`).

Modelling conventions:
- JavaScript objects used as string-keyed maps (the `loading` flags map,
  the `errors` map, and entity records) are embedded as association
  lists `List (String × α)`; the computed-key spread
  `\x7b...m, [k]: v\x7d` is `setKey`, `delete m[k]` is `delKey`, and
  property lookup is `getKey` (a missing property reads as `none`,
  matching `undefined`).
- Entity records (towers, cameras, alarms, live-feed detections) are
  embedded as `Obj := List (String × String)`: field values are kept as
  opaque literals, since the store only ever compares them for equality
  and shallow-merges them; the object spread merge
  `\x7b...a, ...b\x7d` is `jsMerge`.
- `new Date().toISOString()` inside the SET_OVERVIEW reducer case is the
  single impure read of the reducer; it is made explicit as the `now`
  parameter of `surveillanceReducer`.
- Network outcomes are embedded as `Except String (ApiResponse α)`:
  `.error e` is a thrown transport error with message `e`, `.ok r` a
  JSON envelope `\x7bsuccess, data, error\x7d`.
- JavaScript truthiness of optional strings (`if (data.error)`,
  `x || dflt`) is `truthy` / `jsOr`: absent and empty strings are falsy.
-/

/-- Lookup of a string key in an association list; `none` models reading
an absent property (`undefined`). -/
def getKey {α : Type} (m : List (String × α)) (k : String) : Option α :=
  match m with
  | [] => none
  | p :: rest => if p.1 = k then some p.2 else getKey rest k

/-- The computed-key object spread: replace the value of `k` in place if
present, otherwise append the new key at the end. -/
def setKey {α : Type} (m : List (String × α)) (k : String) (v : α) :
    List (String × α) :=
  match m with
  | [] => [(k, v)]
  | p :: rest => if p.1 = k then (k, v) :: rest else p :: setKey rest k v

/-- Property deletion `delete m[k]`. -/
def delKey {α : Type} (m : List (String × α)) (k : String) :
    List (String × α) :=
  match m with
  | [] => []
  | p :: rest => if p.1 = k then delKey rest k else p :: delKey rest k

/-- A JSON entity record with opaque field values. -/
abbrev Obj := List (String × String)

/-- The object spread merge `\x7b...a, ...b\x7d`: keys of `a` keep their
position, overridden by `b` where both have the key; keys only in `b`
are appended. -/
def jsMerge (a b : Obj) : Obj :=
  a.map (fun q =>
    match getKey b q.1 with
    | some v => (q.1, v)
    | none => q)
  ++ b.filter (fun q => (getKey a q.1).isNone)

/-- Truthiness of an optional string field: absent and `""` are falsy. -/
def truthy : Option String → Bool
  | none => false
  | some s => s != ""

/-- The JavaScript `x || dflt` on an optional string field. -/
def jsOr (o : Option String) (dflt : String) : String :=
  match o with
  | some s => if s = "" then dflt else s
  | none => dflt

/-- The `overview` slice of the dashboard store. -/
structure Overview where
  towers_count : Int
  cameras_count : Int
  active_alarms_count : Int
  system_status : String
deriving Repr, DecidableEq

/-- The dashboard store snapshot managed by `surveillanceReducer`. -/
structure SurvState where
  overview : Overview
  towers : List Obj
  cameras : List Obj
  alarms : List Obj
  loading : List (String × Bool)
  errors : List (String × String)
  lastUpdate : Option String
  connectionStatus : String
deriving Repr, DecidableEq

/-- `initialState` of the surveillance context. -/
def initialState : SurvState :=
  { overview :=
      { towers_count := 0
        cameras_count := 0
        active_alarms_count := 0
        system_status := "loading" }
    towers := []
    cameras := []
    alarms := []
    loading :=
      [("overview", false), ("towers", false), ("cameras", false),
       ("alarms", false)]
    errors := []
    lastUpdate := none
    connectionStatus := "disconnected" }

/-- The actions dispatched to the store. Each constructor carries the
payload shape its reducer case reads; `unknown` stands for any action
whose `type` tag is none of the twelve known tags. -/
inductive SurvAction where
  | set_loading (key : String) (value : Bool)
  | set_error (key : String) (error : String)
  | clear_error (key : String)
  | set_overview (payload : Overview)
  | set_towers (payload : List Obj)
  | set_cameras (payload : List Obj)
  | set_alarms (payload : List Obj)
  | add_alarm (payload : Obj)
  | update_alarm (payload : Obj)
  | update_tower (payload : Obj)
  | update_camera (payload : Obj)
  | set_connection_status (payload : String)
  | unknown (tag : String)
deriving Repr, DecidableEq

/-- The `type` string tag of an action, as carried by the dispatched
JavaScript object. -/
def SurvAction.type : SurvAction → String
  | .set_loading _ _ => "SET_LOADING"
  | .set_error _ _ => "SET_ERROR"
  | .clear_error _ => "CLEAR_ERROR"
  | .set_overview _ => "SET_OVERVIEW"
  | .set_towers _ => "SET_TOWERS"
  | .set_cameras _ => "SET_CAMERAS"
  | .set_alarms _ => "SET_ALARMS"
  | .add_alarm _ => "ADD_ALARM"
  | .update_alarm _ => "UPDATE_ALARM"
  | .update_tower _ => "UPDATE_TOWER"
  | .update_camera _ => "UPDATE_CAMERA"
  | .set_connection_status _ => "SET_CONNECTION_STATUS"
  | .unknown tag => tag

/-- The twelve action-type tags listed in `actionTypes`. -/
def knownActionTypes : List String :=
  ["SET_LOADING", "SET_ERROR", "SET_OVERVIEW", "SET_TOWERS", "SET_CAMERAS",
   "SET_ALARMS", "ADD_ALARM", "UPDATE_ALARM", "UPDATE_TOWER",
   "UPDATE_CAMERA", "SET_CONNECTION_STATUS", "CLEAR_ERROR"]

/-- `collection.map(e => e.id === payload.id ? \x7b...e, ...payload\x7d : e)`:
the shared shape of the UPDATE_ALARM / UPDATE_TOWER / UPDATE_CAMERA
cases. -/
def updateById (l : List Obj) (p : Obj) : List Obj :=
  l.map (fun e => if getKey e "id" = getKey p "id" then jsMerge e p else e)

/-- `surveillanceReducer(state, action)`. The `now` argument makes the
`new Date().toISOString()` read of the SET_OVERVIEW case explicit. -/
def surveillanceReducer (now : String) (state : SurvState) (action : SurvAction) :
    SurvState :=
  match action with
  | .set_loading key value =>
      { state with loading := setKey state.loading key value }
  | .set_error key error =>
      { state with
          errors := setKey state.errors key error
          loading := setKey state.loading key false }
  | .clear_error key =>
      { state with errors := delKey state.errors key }
  | .set_overview payload =>
      { state with
          overview := payload
          loading := setKey state.loading "overview" false
          lastUpdate := some now }
  | .set_towers payload =>
      { state with
          towers := payload
          loading := setKey state.loading "towers" false }
  | .set_cameras payload =>
      { state with
          cameras := payload
          loading := setKey state.loading "cameras" false }
  | .set_alarms payload =>
      { state with
          alarms := payload
          loading := setKey state.loading "alarms" false }
  | .add_alarm payload =>
      { state with
          alarms := payload :: state.alarms
          overview :=
            { state.overview with
                active_alarms_count :=
                  state.overview.active_alarms_count + 1 } }
  | .update_alarm payload =>
      { state with alarms := updateById state.alarms payload }
  | .update_tower payload =>
      { state with towers := updateById state.towers payload }
  | .update_camera payload =>
      { state with cameras := updateById state.cameras payload }
  | .set_connection_status payload =>
      { state with connectionStatus := payload }
  | .unknown _ => state

/-- Reading a loading flag the way the UI does: an absent key reads as
`undefined`, which is falsy, hence `false`. -/
def loadingOf (s : SurvState) (k : String) : Bool :=
  (getKey s.loading k).getD false

/-- Dispatching a list of actions in order. -/
def applyActions (now : String) (s : SurvState) (acts : List SurvAction) :
    SurvState :=
  acts.foldl (surveillanceReducer now) s

lemma getKey_setKey_self {α : Type} (m : List (String × α)) (k : String)
    (v : α) : getKey (setKey m k v) k = some v := by
  induction m with
  | nil => simp [setKey, getKey]
  | cons p rest ih =>
      obtain ⟨k0, v0⟩ := p
      by_cases h : k0 = k
      · simp [setKey, getKey, h]
      · simp [setKey, getKey, h, ih]

lemma getKey_setKey_ne {α : Type} (m : List (String × α)) (k k' : String)
    (v : α) (h : k' ≠ k) : getKey (setKey m k v) k' = getKey m k' := by
  induction m with
  | nil => simp [setKey, getKey, Ne.symm h]
  | cons p rest ih =>
      obtain ⟨k0, v0⟩ := p
      by_cases hp : k0 = k
      · subst hp
        simp [setKey, getKey, Ne.symm h]
      · simp only [setKey, hp, if_false, getKey]
        rw [ih]

lemma getKey_delKey_self {α : Type} (m : List (String × α)) (k : String) :
    getKey (delKey m k) k = none := by
  induction m with
  | nil => simp [delKey, getKey]
  | cons p rest ih =>
      obtain ⟨k0, v0⟩ := p
      by_cases h : k0 = k
      · simp [delKey, h, ih]
      · simp [delKey, getKey, h, ih]

lemma getKey_delKey_ne {α : Type} (m : List (String × α)) (k k' : String)
    (h : k' ≠ k) : getKey (delKey m k) k' = getKey m k' := by
  induction m with
  | nil => simp [delKey]
  | cons p rest ih =>
      obtain ⟨k0, v0⟩ := p
      by_cases hp : k0 = k
      · subst hp
        simp [delKey, getKey, Ne.symm h, ih]
      · simp only [delKey, hp, if_false, getKey]
        rw [ih]

/-- Claim C3: for every state and alarm payload, ADD_ALARM prepends the
payload to the alarms list, so the list grows by exactly one, and the
overview active alarm count increases by exactly one; no deduplication
by id is performed. -/
theorem addAlarm_prepends_and_increments (now : String) (s : SurvState)
    (a : Obj) :
    (surveillanceReducer now s (.add_alarm a)).alarms = a :: s.alarms ∧
    (surveillanceReducer now s (.add_alarm a)).alarms.length =
      s.alarms.length + 1 ∧
    (surveillanceReducer now s (.add_alarm a)).overview.active_alarms_count =
      s.overview.active_alarms_count + 1 := by
  refine ⟨rfl, ?_, rfl⟩
  simp [surveillanceReducer]

/-- Claim C8: dispatching SET_TOWERS with the same list twice is
idempotent on the towers collection, which equals that list after the
first and after the second dispatch, and the towers loading flag is
false after each dispatch. -/
theorem setTowers_idempotent (now : String) (s : SurvState) (l : List Obj) :
    (surveillanceReducer now s (.set_towers l)).towers = l ∧
    (surveillanceReducer now
        (surveillanceReducer now s (.set_towers l)) (.set_towers l)).towers
      = l ∧
    loadingOf (surveillanceReducer now s (.set_towers l)) "towers" = false ∧
    loadingOf
        (surveillanceReducer now
          (surveillanceReducer now s (.set_towers l)) (.set_towers l))
        "towers" = false := by
  refine ⟨rfl, rfl, ?_, ?_⟩ <;>
    simp [surveillanceReducer, loadingOf, getKey_setKey_self]

/-- Claim C9: the reducer is a total function of its inputs (the wall
clock read of SET_OVERVIEW made an explicit argument), and every action
whose type tag is not one of the twelve known tags is a no-op returning
the state unchanged. -/
theorem reducer_unknown_noop (now : String) (s : SurvState) (a : SurvAction)
    (h : SurvAction.type a ∉ knownActionTypes) :
    surveillanceReducer now s a = s := by
  cases a <;> simp only [SurvAction.type] at h <;> first
    | rfl
    | exact absurd (by decide) h

/-- Witness for C9 at a concrete unknown tag. -/
theorem reducer_unknown_noop_witness :
    surveillanceReducer "2025-01-01T00:00:00Z" initialState
      (.unknown "RESET_ALL") = initialState :=
  reducer_unknown_noop "2025-01-01T00:00:00Z" initialState
    (.unknown "RESET_ALL") (by decide)

/-- A store state holding a stale towers error entry, as left behind by a
failed towers fetch. -/
def stateWithTowersError : SurvState :=
  { initialState with errors := [("towers", "db unreachable")] }

/-- Claim C1 counterexample: dispatching SET_TOWERS on a state whose
errors map holds a towers entry replaces the collection but leaves the
towers error entry in place, so a successful fetch does not clear the
error for that key. -/
theorem setTowers_error_not_cleared :
    (surveillanceReducer "2025-01-01T00:00:00Z" stateWithTowersError
        (.set_towers [])).towers = [] ∧
    getKey (surveillanceReducer "2025-01-01T00:00:00Z" stateWithTowersError
        (.set_towers [])).errors "towers" = some "db unreachable" := by
  exact ⟨rfl, by decide⟩

/-- Claim C1 amended: SET_TOWERS, SET_CAMERAS and SET_ALARMS replace the
corresponding collection with the payload and force that key's loading
flag to false, but leave the errors map entirely unchanged: the error
entry for the key is not cleared. -/
theorem setResource_keeps_errors (now : String) (s : SurvState)
    (l : List Obj) :
    ((surveillanceReducer now s (.set_towers l)).errors = s.errors ∧
     (surveillanceReducer now s (.set_towers l)).towers = l ∧
     loadingOf (surveillanceReducer now s (.set_towers l)) "towers"
       = false) ∧
    ((surveillanceReducer now s (.set_cameras l)).errors = s.errors ∧
     (surveillanceReducer now s (.set_cameras l)).cameras = l ∧
     loadingOf (surveillanceReducer now s (.set_cameras l)) "cameras"
       = false) ∧
    ((surveillanceReducer now s (.set_alarms l)).errors = s.errors ∧
     (surveillanceReducer now s (.set_alarms l)).alarms = l ∧
     loadingOf (surveillanceReducer now s (.set_alarms l)) "alarms"
       = false) := by
  refine ⟨⟨rfl, rfl, ?_⟩, ⟨rfl, rfl, ?_⟩, ⟨rfl, rfl, ?_⟩⟩ <;>
    simp [surveillanceReducer, loadingOf, getKey_setKey_self]

/-- The error/loading exclusion predicate: every key present in the
errors map has its loading flag reading false. -/
def errLoadInv (s : SurvState) : Prop :=
  ∀ k, (getKey s.errors k).isSome = true → loadingOf s k = false

lemma getD_setKey_false (m : List (String × Bool)) (kk k : String)
    (h : (getKey m k).getD false = false) :
    (getKey (setKey m kk false) k).getD false = false := by
  by_cases hk : k = kk
  · subst hk
    simp [getKey_setKey_self]
  · rw [getKey_setKey_ne m kk k false hk]
    exact h

/-- Claim C2 counterexample: from the initial state, SET_ERROR on the
towers key followed by SET_LOADING(towers, true) reaches a state in
which towers is present in the errors map while its loading flag is
true, so the exclusion predicate is not preserved by every dispatched
action. -/
theorem errLoadInv_not_preserved :
    ¬ errLoadInv
        (surveillanceReducer "2025-01-01T00:00:00Z"
          (surveillanceReducer "2025-01-01T00:00:00Z" initialState
            (.set_error "towers" "boom"))
          (.set_loading "towers" true)) := by
  intro h
  have h2 := h "towers" (by decide)
  exact absurd h2 (by decide)

/-- Claim C2 amended: the error/loading exclusion predicate holds in the
initial state and is preserved by every dispatched action except
SET_LOADING(key, true) issued while key is present in the errors map;
under the guard that a SET_LOADING with value true targets a key with no
error entry, every action preserves the predicate. -/
theorem errLoadInv_init_and_guarded_preservation :
    errLoadInv initialState ∧
    ∀ now s a, errLoadInv s →
      (∀ k, a = SurvAction.set_loading k true → getKey s.errors k = none) →
      errLoadInv (surveillanceReducer now s a) := by
  constructor
  · intro k hk
    simp [initialState, getKey] at hk
  · intro now s a hinv hguard
    cases a with
    | set_loading key value =>
        intro k hk
        have hk' : (getKey s.errors k).isSome = true := hk
        cases value with
        | true =>
            by_cases hkk : k = key
            · subst hkk
              rw [hguard k rfl] at hk'
              exact absurd hk' (by simp)
            · show (getKey (setKey s.loading key true) k).getD false = false
              rw [getKey_setKey_ne s.loading key k true hkk]
              exact hinv k hk'
        | false =>
            show (getKey (setKey s.loading key false) k).getD false = false
            exact getD_setKey_false s.loading key k (hinv k hk')
    | set_error key err =>
        intro k hk
        have hk' : (getKey (setKey s.errors key err) k).isSome = true := hk
        show (getKey (setKey s.loading key false) k).getD false = false
        by_cases hkk : k = key
        · subst hkk
          simp [getKey_setKey_self]
        · rw [getKey_setKey_ne s.errors key k err hkk] at hk'
          rw [getKey_setKey_ne s.loading key k false hkk]
          exact hinv k hk'
    | clear_error key =>
        intro k hk
        have hk' : (getKey (delKey s.errors key) k).isSome = true := hk
        by_cases hkk : k = key
        · subst hkk
          rw [getKey_delKey_self s.errors k] at hk'
          exact absurd hk' (by simp)
        · rw [getKey_delKey_ne s.errors key k hkk] at hk'
          exact hinv k hk'
    | set_overview payload =>
        intro k hk
        show (getKey (setKey s.loading "overview" false) k).getD false = false
        exact getD_setKey_false s.loading "overview" k (hinv k hk)
    | set_towers payload =>
        intro k hk
        show (getKey (setKey s.loading "towers" false) k).getD false = false
        exact getD_setKey_false s.loading "towers" k (hinv k hk)
    | set_cameras payload =>
        intro k hk
        show (getKey (setKey s.loading "cameras" false) k).getD false = false
        exact getD_setKey_false s.loading "cameras" k (hinv k hk)
    | set_alarms payload =>
        intro k hk
        show (getKey (setKey s.loading "alarms" false) k).getD false = false
        exact getD_setKey_false s.loading "alarms" k (hinv k hk)
    | add_alarm payload => exact fun k hk => hinv k hk
    | update_alarm payload => exact fun k hk => hinv k hk
    | update_tower payload => exact fun k hk => hinv k hk
    | update_camera payload => exact fun k hk => hinv k hk
    | set_connection_status payload => exact fun k hk => hinv k hk
    | unknown tag => exact fun k hk => hinv k hk

/-- Witness for C2 amended: the guarded preservation applied to the
initial state and a SET_LOADING(towers, true) action, whose guard holds
because the initial errors map is empty. -/
theorem errLoadInv_init_and_guarded_preservation_witness :
    errLoadInv (surveillanceReducer "2025-01-01T00:00:00Z" initialState
      (.set_loading "towers" true)) :=
  errLoadInv_init_and_guarded_preservation.2 "2025-01-01T00:00:00Z"
    initialState (.set_loading "towers" true)
    errLoadInv_init_and_guarded_preservation.1
    (fun _ _ => rfl)

lemma updateById_no_match (l : List Obj) (p : Obj) :
    (∀ a ∈ l, getKey a "id" ≠ getKey p "id") → updateById l p = l := by
  induction l with
  | nil => intro _; rfl
  | cons a rest ih =>
      intro h
      have ha : getKey a "id" ≠ getKey p "id" := h a (by simp)
      have hrest : ∀ b ∈ rest, getKey b "id" ≠ getKey p "id" :=
        fun b hb => h b (by simp [hb])
      simp only [updateById, List.map_cons]
      rw [if_neg ha]
      have htl := ih hrest
      simp only [updateById] at htl
      rw [htl]

/-- Claim C4: UPDATE_ALARM keeps the alarms list the same length,
shallow-merges the payload into every alarm whose id equals the payload
id, leaves every alarm with a different id unchanged at its position,
and when no alarm carries the payload id it leaves the whole list
unchanged, signalling no error. -/
theorem updateAlarm_targeted (now : String) (s : SurvState) (p : Obj) :
    (surveillanceReducer now s (.update_alarm p)).alarms.length
      = s.alarms.length ∧
    (∀ (i : Nat) (a : Obj), s.alarms[i]? = some a →
      getKey a "id" ≠ getKey p "id" →
      (surveillanceReducer now s (.update_alarm p)).alarms[i]? = some a) ∧
    (∀ (i : Nat) (a : Obj), s.alarms[i]? = some a →
      getKey a "id" = getKey p "id" →
      (surveillanceReducer now s (.update_alarm p)).alarms[i]?
        = some (jsMerge a p)) ∧
    ((∀ a ∈ s.alarms, getKey a "id" ≠ getKey p "id") →
      (surveillanceReducer now s (.update_alarm p)).alarms = s.alarms) := by
  refine ⟨?_, ?_, ?_, ?_⟩
  · simp [surveillanceReducer, updateById]
  · intro i a ha hne
    simp [surveillanceReducer, updateById, List.getElem?_map, ha, hne]
  · intro i a ha heq
    simp [surveillanceReducer, updateById, List.getElem?_map, ha, heq]
  · intro hall
    show updateById s.alarms p = s.alarms
    exact updateById_no_match s.alarms p hall

/-- A store state holding two distinct alarms, used to exercise the
targeted-update theorem. -/
def alarmsDemoState : SurvState :=
  { initialState with
      alarms := [[("id", "a1"), ("status", "active")],
                 [("id", "a2"), ("status", "active")]] }

/-- Witness for C4: acknowledging alarm a1 merges the status into the
alarm with id a1 and leaves the alarm with id a2 untouched. -/
theorem updateAlarm_targeted_witness :
    (surveillanceReducer "2025-01-01T00:00:00Z" alarmsDemoState
        (.update_alarm [("id", "a1"), ("status", "acknowledged")])).alarms[1]?
      = some [("id", "a2"), ("status", "active")] ∧
    (surveillanceReducer "2025-01-01T00:00:00Z" alarmsDemoState
        (.update_alarm [("id", "a1"), ("status", "acknowledged")])).alarms[0]?
      = some (jsMerge [("id", "a1"), ("status", "active")]
          [("id", "a1"), ("status", "acknowledged")]) :=
  ⟨(updateAlarm_targeted "2025-01-01T00:00:00Z" alarmsDemoState
      [("id", "a1"), ("status", "acknowledged")]).2.1 1
      [("id", "a2"), ("status", "active")] (by decide) (by decide),
   (updateAlarm_targeted "2025-01-01T00:00:00Z" alarmsDemoState
      [("id", "a1"), ("status", "acknowledged")]).2.2.1 0
      [("id", "a1"), ("status", "active")] (by decide) (by decide)⟩

/-- The mutable fields of one ViamVideoPlayer live-feed session. -/
structure SessionState where
  isConnected : Bool
  isLoading : Bool
  error : Option String
  currentImage : Option String
  detections : List Obj
deriving Repr, DecidableEq

/-- A parsed live-feed event payload: each optional field is absent when
the JSON object lacks it. Detections are kept as opaque records since
the handler stores them without inspection. -/
structure FeedPayload where
  error : Option String
  image : Option String
  detections : Option (List Obj)
deriving Repr, DecidableEq

/-- The eventSource.onmessage handler of startLiveFeed: `none` stands
for an event whose data failed to parse as JSON (logged and ignored); a
truthy error field keeps everything but the error message; otherwise the
frame, the detection set (defaulted to empty) and the cleared error are
written. -/
def onMessage (s : SessionState) (eventData : Option FeedPayload) :
    SessionState :=
  match eventData with
  | none => s
  | some d =>
      if truthy d.error then
        { s with error := d.error }
      else
        { s with
            currentImage := d.image
            detections := d.detections.getD []
            error := none }

/-- A live session holding a good frame, used as the starting point of
the live-feed counterexample. -/
def liveSession : SessionState :=
  { isConnected := true
    isLoading := false
    error := none
    currentImage := some "frame1"
    detections := [] }

/-- Claim C5 counterexample: a payload parsing to an object whose error
field is the empty string is falsy in the handler, so instead of setting
the session error to that message and keeping the frame, the handler
clears the error and overwrites the current frame with the absent image
field. -/
theorem onMessage_empty_error_counterexample :
    (onMessage liveSession
        (some ⟨some "", none, none⟩)).error
      = none ∧
    (onMessage liveSession
        (some ⟨some "", none, none⟩)).currentImage
      = none ∧
    liveSession.currentImage = some "frame1" := by
  exact ⟨rfl, rfl, rfl⟩

/-- Claim C5 amended: a payload parsing to an object with a non-empty
error message sets the session error to that message and leaves the
current frame and detection set unchanged; a payload with no error field
and image and detections fields sets the current frame to the image,
replaces the detection set and clears any prior error; a payload that
fails to parse as JSON leaves the session state unchanged. -/
theorem onMessage_transitions :
    (∀ s msg img dets, msg ≠ "" →
      (onMessage s (some ⟨some msg, img, dets⟩)).error = some msg ∧
      (onMessage s (some ⟨some msg, img, dets⟩)).currentImage = s.currentImage ∧
      (onMessage s (some ⟨some msg, img, dets⟩)).detections = s.detections) ∧
    (∀ s img dl,
      (onMessage s (some ⟨none, some img, some dl⟩)).currentImage = some img ∧
      (onMessage s (some ⟨none, some img, some dl⟩)).detections = dl ∧
      (onMessage s (some ⟨none, some img, some dl⟩)).error = none) ∧
    (∀ s, onMessage s none = s) := by
  refine ⟨?_, ?_, fun s => rfl⟩
  · intro s msg img dets hmsg
    refine ⟨?_, ?_, ?_⟩ <;> simp [onMessage, truthy, hmsg]
  · intro s img dl
    exact ⟨rfl, rfl, rfl⟩

/-- Witness for C5 amended: a decode-failure payload on a live session
sets the error message and keeps the last good frame. -/
theorem onMessage_transitions_witness :
    (onMessage liveSession
        (some ⟨some "decode failure", none, none⟩)).error = some "decode failure" ∧
    (onMessage liveSession
        (some ⟨some "decode failure", none, none⟩)).currentImage = some "frame1" := by
  obtain ⟨h1, h2, _⟩ :=
    onMessage_transitions.1 liveSession "decode failure" none none
      (by decide)
  exact ⟨h1, h2⟩

/-- Claim C10: a payload parsing to an object with no error field and no
detections field replaces the detection set with the empty list, sets
the current frame to the image field and clears any prior error. -/
theorem onMessage_missing_detections_cleared (s : SessionState)
    (img : Option String) :
    (onMessage s (some ⟨none, img, none⟩)).detections = [] ∧
    (onMessage s (some ⟨none, img, none⟩)).currentImage = img ∧
    (onMessage s (some ⟨none, img, none⟩)).error = none := by
  exact ⟨rfl, rfl, rfl⟩

/-- The backend JSON envelope: success flag, data of the endpoint type
and an optional server error message. -/
structure ApiResponse (α : Type) where
  success : Bool
  data : α
  error : Option String
deriving Repr, DecidableEq

/-- The observable outcome of one gateway mutation: the store actions it
dispatches, in order, and the message of the error it throws to the
caller, when any. -/
structure OpResult where
  dispatched : List SurvAction
  thrown : Option String
deriving Repr, DecidableEq

/-- Whether a network outcome is a failure: a thrown transport error or
an envelope whose success flag is false. -/
def isFailure {α : Type} : Except String (ApiResponse α) → Bool
  | .error _ => true
  | .ok r => !r.success

/-- actions.fetchTowers: set the towers loading flag, then on a
successful envelope dispatch SET_TOWERS with the data, otherwise record
the backend reason or the transport message under the towers key. -/
def fetchTowers (resp : Except String (ApiResponse (List Obj))) :
    List SurvAction :=
  SurvAction.set_loading "towers" true ::
    match resp with
    | .ok r =>
        if r.success then [SurvAction.set_towers r.data]
        else [SurvAction.set_error "towers"
          (jsOr r.error "Failed to fetch towers")]
    | .error e => [SurvAction.set_error "towers" e]

/-- actions.fetchCameras: same protocol as fetchTowers on the cameras
key. -/
def fetchCameras (resp : Except String (ApiResponse (List Obj))) :
    List SurvAction :=
  SurvAction.set_loading "cameras" true ::
    match resp with
    | .ok r =>
        if r.success then [SurvAction.set_cameras r.data]
        else [SurvAction.set_error "cameras"
          (jsOr r.error "Failed to fetch cameras")]
    | .error e => [SurvAction.set_error "cameras" e]

/-- actions.createTower: on success refetch the towers list (the refetch
outcome is the second network argument); on an unsuccessful envelope or
a transport error record the message under the towers key and rethrow
it. -/
def createTower (_towerData : Obj)
    (resp : Except String (ApiResponse Obj))
    (refetchResp : Except String (ApiResponse (List Obj))) : OpResult :=
  match resp with
  | .ok r =>
      if r.success then
        { dispatched := fetchTowers refetchResp, thrown := none }
      else
        { dispatched := [SurvAction.set_error "towers"
            (jsOr r.error "Failed to create tower")]
          thrown := some (jsOr r.error "Failed to create tower") }
  | .error e =>
      { dispatched := [SurvAction.set_error "towers" e]
        thrown := some e }

/-- actions.updateTower: on success dispatch UPDATE_TOWER with the
response data; on failure record the message under the towers key and
rethrow it. -/
def updateTower (_towerId : String)
    (resp : Except String (ApiResponse Obj)) : OpResult :=
  match resp with
  | .ok r =>
      if r.success then
        { dispatched := [SurvAction.update_tower r.data], thrown := none }
      else
        { dispatched := [SurvAction.set_error "towers"
            (jsOr r.error "Failed to update tower")]
          thrown := some (jsOr r.error "Failed to update tower") }
  | .error e =>
      { dispatched := [SurvAction.set_error "towers" e]
        thrown := some e }

/-- actions.createCamera: on success refetch the cameras list; on
failure record the message under the cameras key and rethrow it. -/
def createCamera (_cameraData : Obj)
    (resp : Except String (ApiResponse Obj))
    (refetchResp : Except String (ApiResponse (List Obj))) : OpResult :=
  match resp with
  | .ok r =>
      if r.success then
        { dispatched := fetchCameras refetchResp, thrown := none }
      else
        { dispatched := [SurvAction.set_error "cameras"
            (jsOr r.error "Failed to create camera")]
          thrown := some (jsOr r.error "Failed to create camera") }
  | .error e =>
      { dispatched := [SurvAction.set_error "cameras" e]
        thrown := some e }

/-- actions.acknowledgeAlarm: on success dispatch UPDATE_ALARM with the
alarm id and the acknowledged status; on failure record the message
under the alarms key and rethrow it. -/
def acknowledgeAlarm (alarmId : String)
    (resp : Except String (ApiResponse Obj)) : OpResult :=
  match resp with
  | .ok r =>
      if r.success then
        { dispatched :=
            [SurvAction.update_alarm [("id", alarmId),
              ("status", "acknowledged")]]
          thrown := none }
      else
        { dispatched := [SurvAction.set_error "alarms"
            (jsOr r.error "Failed to acknowledge alarm")]
          thrown := some (jsOr r.error "Failed to acknowledge alarm") }
  | .error e =>
      { dispatched := [SurvAction.set_error "alarms" e]
        thrown := some e }

/-- actions.resolveAlarm: on success dispatch UPDATE_ALARM with the
alarm id and the resolved status; on failure record the message under
the alarms key and rethrow it. -/
def resolveAlarm (alarmId : String)
    (resp : Except String (ApiResponse Obj)) : OpResult :=
  match resp with
  | .ok r =>
      if r.success then
        { dispatched :=
            [SurvAction.update_alarm [("id", alarmId),
              ("status", "resolved")]]
          thrown := none }
      else
        { dispatched := [SurvAction.set_error "alarms"
            (jsOr r.error "Failed to resolve alarm")]
          thrown := some (jsOr r.error "Failed to resolve alarm") }
  | .error e =>
      { dispatched := [SurvAction.set_error "alarms" e]
        thrown := some e }

/-- The connection monitor cycle: the status string dispatched through
SET_CONNECTION_STATUS after one health probe. -/
def checkConnection (resp : Except String (ApiResponse Unit)) : String :=
  match resp with
  | .ok r => if r.success then "connected" else "disconnected"
  | .error _ => "disconnected"

lemma errors_after_single_setError (now : String) (s : SurvState)
    (k msg : String) :
    getKey (applyActions now s [SurvAction.set_error k msg]).errors k
      = some msg := by
  show getKey (setKey s.errors k msg) k = some msg
  exact getKey_setKey_self s.errors k msg

/-- Claim C6: for each gateway mutation, an unsuccessful envelope or a
thrown transport error makes the operation throw an error message to
its caller and, applying its dispatched actions to any store state,
record that same message in the errors map under the owning resource
key (towers, cameras or alarms). -/
theorem gateway_failure_throws_and_records :
    (∀ td resp refetch, isFailure resp = true →
      ∃ msg, (createTower td resp refetch).thrown = some msg ∧
        ∀ now s, getKey (applyActions now s
          (createTower td resp refetch).dispatched).errors "towers"
          = some msg) ∧
    (∀ tid resp, isFailure resp = true →
      ∃ msg, (updateTower tid resp).thrown = some msg ∧
        ∀ now s, getKey (applyActions now s
          (updateTower tid resp).dispatched).errors "towers" = some msg) ∧
    (∀ cd resp refetch, isFailure resp = true →
      ∃ msg, (createCamera cd resp refetch).thrown = some msg ∧
        ∀ now s, getKey (applyActions now s
          (createCamera cd resp refetch).dispatched).errors "cameras"
          = some msg) ∧
    (∀ aid resp, isFailure resp = true →
      ∃ msg, (acknowledgeAlarm aid resp).thrown = some msg ∧
        ∀ now s, getKey (applyActions now s
          (acknowledgeAlarm aid resp).dispatched).errors "alarms"
          = some msg) ∧
    (∀ aid resp, isFailure resp = true →
      ∃ msg, (resolveAlarm aid resp).thrown = some msg ∧
        ∀ now s, getKey (applyActions now s
          (resolveAlarm aid resp).dispatched).errors "alarms" = some msg) := by
  refine ⟨?_, ?_, ?_, ?_, ?_⟩
  · intro td resp refetch h
    cases resp with
    | error e =>
        exact ⟨e, rfl, fun now s =>
          errors_after_single_setError now s "towers" e⟩
    | ok r =>
        have hs : r.success = false := by
          simpa [isFailure] using h
        refine ⟨jsOr r.error "Failed to create tower", ?_, ?_⟩
        · simp [createTower, hs]
        · intro now s
          simp only [createTower, hs, Bool.false_eq_true, if_false]
          exact errors_after_single_setError now s "towers" _
  · intro tid resp h
    cases resp with
    | error e =>
        exact ⟨e, rfl, fun now s =>
          errors_after_single_setError now s "towers" e⟩
    | ok r =>
        have hs : r.success = false := by
          simpa [isFailure] using h
        refine ⟨jsOr r.error "Failed to update tower", ?_, ?_⟩
        · simp [updateTower, hs]
        · intro now s
          simp only [updateTower, hs, Bool.false_eq_true, if_false]
          exact errors_after_single_setError now s "towers" _
  · intro cd resp refetch h
    cases resp with
    | error e =>
        exact ⟨e, rfl, fun now s =>
          errors_after_single_setError now s "cameras" e⟩
    | ok r =>
        have hs : r.success = false := by
          simpa [isFailure] using h
        refine ⟨jsOr r.error "Failed to create camera", ?_, ?_⟩
        · simp [createCamera, hs]
        · intro now s
          simp only [createCamera, hs, Bool.false_eq_true, if_false]
          exact errors_after_single_setError now s "cameras" _
  · intro aid resp h
    cases resp with
    | error e =>
        exact ⟨e, rfl, fun now s =>
          errors_after_single_setError now s "alarms" e⟩
    | ok r =>
        have hs : r.success = false := by
          simpa [isFailure] using h
        refine ⟨jsOr r.error "Failed to acknowledge alarm", ?_, ?_⟩
        · simp [acknowledgeAlarm, hs]
        · intro now s
          simp only [acknowledgeAlarm, hs, Bool.false_eq_true, if_false]
          exact errors_after_single_setError now s "alarms" _
  · intro aid resp h
    cases resp with
    | error e =>
        exact ⟨e, rfl, fun now s =>
          errors_after_single_setError now s "alarms" e⟩
    | ok r =>
        have hs : r.success = false := by
          simpa [isFailure] using h
        refine ⟨jsOr r.error "Failed to resolve alarm", ?_, ?_⟩
        · simp [resolveAlarm, hs]
        · intro now s
          simp only [resolveAlarm, hs, Bool.false_eq_true, if_false]
          exact errors_after_single_setError now s "alarms" _

/-- Witness for C6: a transport failure of createTower throws the
transport message and records it under the towers key. -/
theorem gateway_failure_throws_and_records_witness :
    (createTower [] (Except.error "net down")
        (Except.error "x")).thrown = some "net down" ∧
    getKey (applyActions "2025-01-01T00:00:00Z" initialState
        (createTower [] (Except.error "net down")
          (Except.error "x")).dispatched).errors "towers"
      = some "net down" := by
  obtain ⟨msg, h1, h2⟩ :=
    gateway_failure_throws_and_records.1 [] (Except.error "net down")
      (Except.error "x") rfl
  have h0 : (createTower [] (Except.error "net down")
      (Except.error "x")).thrown = some "net down" := rfl
  rw [h0] at h1
  have hm : msg = "net down" := (Option.some_inj.mp h1).symm
  subst hm
  exact ⟨h0, h2 "2025-01-01T00:00:00Z" initialState⟩

/-- Claim C7: after one health-probe cycle the store connection status
is connected exactly when the probe returned a successful envelope;
every transport failure and every unsuccessful response yields
disconnected. -/
theorem checkConnection_connected_iff (now : String) (s : SurvState)
    (resp : Except String (ApiResponse Unit)) :
    (surveillanceReducer now s
        (.set_connection_status (checkConnection resp))).connectionStatus
      = "connected"
      ↔ ∃ r, resp = Except.ok r ∧ r.success = true := by
  cases resp with
  | error e =>
      constructor
      · intro h
        have h2 : ("disconnected" : String) = "connected" := h
        exact absurd h2 (by decide)
      · rintro ⟨r, hr, _⟩
        exact Except.noConfusion hr
  | ok r =>
      by_cases hs : r.success = true
      · constructor
        · intro _
          exact ⟨r, rfl, hs⟩
        · intro _
          show (if r.success = true then ("connected" : String)
            else "disconnected") = "connected"
          rw [if_pos hs]
      · constructor
        · intro h
          have h2 : (if r.success = true then ("connected" : String)
              else "disconnected") = "connected" := h
          rw [if_neg hs] at h2
          exact absurd h2 (by decide)
        · rintro ⟨r', hr, hsucc⟩
          injection hr with hrr
          subst hrr
          exact absurd hsucc hs

/-- Witness for C7: a successful probe yields the connected status in
the store. -/
theorem checkConnection_connected_iff_witness :
    (surveillanceReducer "2025-01-01T00:00:00Z" initialState
        (.set_connection_status
          (checkConnection (Except.ok ⟨true, (), none⟩)))).connectionStatus
      = "connected" :=
  (checkConnection_connected_iff "2025-01-01T00:00:00Z" initialState
      (Except.ok ⟨true, (), none⟩)).mpr ⟨⟨true, (), none⟩, rfl, rfl⟩
